import Mathlib

/-!
Verification of the orchestration core of the PERSONAL-BOARDROOM repository
(`src/server/services/llm-client.js` and `src/server/services/orchestrator.js`).

The JavaScript code is shallowly embedded as executable Lean definitions:

* JS `Error` objects are represented by their message string (the only part
  the code ever inspects, via `error.message.includes`).
* The provider call `complete` (network fetch + `parseResponse`) is an
  external effect; the orchestrator-level model takes an oracle
  `String → String → Nat → Except String Outcome` mapping
  (persona id, input text, attempt number) to the attempt outcome.
  `parseResponse` itself is embedded separately, parameterised by the host
  primitive `JSON.parse` (a function `String → Option ParsedObj`, `none`
  modelling a parse exception).
* Database writes and call starts are recorded as an explicit event trace,
  in the exact program order of the source.
* JS truthiness of strings (empty string is falsy, used by the `||`
  defaulting idiom) is modelled by `jsOr`; `undefined`/missing fields are
  `Option.none`.
-/

/-! ## Strings: JS `String.prototype.includes` and regex fence matching -/

/-- Does `pat` occur as a prefix-aligned match somewhere in the character
list? Backing computation for the JS `includes` substring test. -/
def hasSub (pat : List Char) : List Char → Bool
  | [] => pat.isEmpty
  | c :: rest => pat.isPrefixOf (c :: rest) || hasSub pat rest

/-- JS `hay.includes(needle)`. -/
def jsIncludes (hay needle : String) : Bool :=
  hasSub needle.toList hay.toList

/-- JS falsy-string defaulting `v || dflt` where `v` is a possibly
undefined string (empty string is falsy). -/
def jsOr (v : Option String) (dflt : String) : String :=
  match v with
  | none => dflt
  | some s => if s = "" then dflt else s

/-- Characters of a string with leading and trailing whitespace removed. -/
def trimChars (cs : List Char) : List Char :=
  ((cs.dropWhile Char.isWhitespace).reverse.dropWhile Char.isWhitespace).reverse

/-- JS `s.trim()` (whitespace stripping at both ends), computed on the
character list. -/
def jsTrim (s : String) : String := String.mk (trimChars s.toList)

/-- JS `s.toUpperCase()`, computed on the character list. -/
def jsToUpper (s : String) : String := String.mk (s.toList.map Char.toUpper)

/-- The body of the fence regexes after the opening literal:
`\n?([\s\S]*?)\n?```  — lazy capture, then an optional newline (greedy),
then the closing fence. Returns the capture group, iterating the lazy
quantifier from the shortest candidate exactly as a backtracking engine
does. -/
def fenceBody : List Char → Option (List Char)
  | [] => none
  | c :: rest =>
    if ("\n```".toList).isPrefixOf (c :: rest) then some []
    else if ("```".toList).isPrefixOf (c :: rest) then some []
    else (fenceBody rest).map (c :: ·)

/-- The leading `\n?` of the fence body: the greedy branch consuming the
newline is tried first, with backtracking to the non-consuming branch. -/
def fenceMatchAt (t : List Char) : Option (List Char) :=
  match t with
  | '\n' :: t1 =>
    match fenceBody t1 with
    | some cap => some cap
    | none => fenceBody ('\n' :: t1)
  | _ => fenceBody t

/-- Leftmost regex match: scan start positions left to right, at each one
require the opening literal `openPat` and then the fence body. Models
`text.match(/OPEN\n?([\s\S]*?)\n?```/)` returning capture group 1. -/
def scanFence (openPat : List Char) : List Char → Option (List Char)
  | [] => none
  | c :: rest =>
    if openPat.isPrefixOf (c :: rest) then
      match fenceMatchAt ((c :: rest).drop openPat.length) with
      | some cap => some cap
      | none => scanFence openPat rest
    else scanFence openPat rest

/-- Capture of ``` ```json\n?([\s\S]*?)\n?``` ``` on a string. -/
def matchJsonFence (s : String) : Option String :=
  (scanFence "```json".toList s.toList).map (fun cs => String.mk cs)

/-- Capture of ``` ```\n?([\s\S]*?)\n?``` ``` on a string. -/
def matchAnyFence (s : String) : Option String :=
  (scanFence "```".toList s.toList).map (fun cs => String.mk cs)

/-! ## Data model: completion outcomes (llm-client.js `parseResponse`) -/

/-- Token usage of one completion call. -/
structure Tokens where
  input : Nat
  output : Nat
  reasoning : Nat
  total : Nat

/-- Validation-metrics object of the board-member schema
(`30_day` / `90_day` arrays). -/
structure VMetrics where
  thirty_day : List String := []
  ninety_day : List String := []

/-- Field-projection view of the parsed JSON object, covering exactly the
properties the source accesses (`saveResponse`, `formatSynthesisInput`).
A JSON value lacking a property has the corresponding field `none`;
`integrated_recommendation_decision` models the optional chain
`parsed.integrated_recommendation?.decision`. -/
structure ParsedObj where
  position : Option String := none
  top_reasons : Option (List String) := none
  top_risks : Option (List String) := none
  recommended_modifications : Option (List String) := none
  validation_metrics : Option VMetrics := none
  confidence : Option String := none
  integrated_recommendation_decision : Option String := none

/-- Result of one provider call: `{ parsed, raw, tokens, responseId }`. -/
structure Outcome where
  parsed : Option ParsedObj
  raw : String
  tokens : Tokens
  responseId : Option String

/-- One typed content block of the Responses API `output` array. -/
structure ContentBlock where
  type : String
  text : Option String

/-- One item of the Responses API `output` array. -/
structure OutputItem where
  type : String
  content : Option (List ContentBlock)

/-- The `usage` object of a provider response; absent counters are `none`. -/
structure Usage where
  input_tokens : Option Nat := none
  output_tokens : Option Nat := none
  reasoning_tokens : Option Nat := none
  total_tokens : Option Nat := none

/-- A provider success response body. -/
structure ResponseData where
  output_text : Option String := none
  output : Option (List OutputItem) := none
  usage : Option Usage := none
  id : Option String := none

/-- Inner fold of the raw-text extraction: concatenate the `text` of
`output_text` / `text` typed content blocks. -/
def blockText (acc : String) (c : ContentBlock) : String :=
  if c.type == "output_text" || c.type == "text" then acc ++ (c.text.getD "") else acc

/-- Outer fold of the raw-text extraction: only `message` items with a
present `content` array contribute. -/
def itemText (acc : String) (it : OutputItem) : String :=
  if it.type == "message" then
    match it.content with
    | some blocks => blocks.foldl blockText acc
    | none => acc
  else acc

/-- Embeds `let rawText = data.output_text || ''` and, if that is empty and an
`output` array exists, the concatenation of all textual segments. -/
def extractRawText (d : ResponseData) : String :=
  let rawText := jsOr d.output_text ""
  if rawText == "" then
    match d.output with
    | some items => items.foldl itemText rawText
    | none => rawText
  else rawText

/-- The JSON-candidate extraction of `parseResponse`: first regex
``` ```json fence ```, else any ``` ``` fence ```, else the trimmed whole
text; the chosen capture is trimmed. -/
def extractJsonStr (rawText : String) : String :=
  let jsonMatch :=
    match matchJsonFence rawText with
    | some c => some c
    | none => matchAnyFence rawText
  match jsonMatch with
  | some c => jsTrim c
  | none => jsTrim rawText

/-- Embeds `parseResponse(data, expectJson)`, parameterised by the host primitive
`JSON.parse` (`jparse`, returning `none` where JS throws, which the source
catches and turns into `parsed = null`). -/
def parseResponse (jparse : String → Option ParsedObj) (d : ResponseData)
    (expectJson : Bool) : Outcome :=
  let rawText := extractRawText d
  let tokens : Tokens :=
    { input := (d.usage.bind (fun u => u.input_tokens)).getD 0
      output := (d.usage.bind (fun u => u.output_tokens)).getD 0
      reasoning := (d.usage.bind (fun u => u.reasoning_tokens)).getD 0
      total := (d.usage.bind (fun u => u.total_tokens)).getD 0 }
  let parsed := if expectJson && !(rawText == "") then jparse (extractJsonStr rawText) else none
  { parsed := parsed, raw := rawText, tokens := tokens, responseId := d.id }

/-- The error message built by `complete` on a non-success provider status:
`OpenAI Responses API error (status): body`. -/
def providerErrorMessage (status : Nat) (body : String) : String :=
  "OpenAI Responses API error (" ++ toString status ++ "): " ++ body

/-! ## Retry wrapper (`completeWithRetry`) -/

/-- Trace of one `completeWithRetry` execution: the surfaced result, how
many times the provider was invoked, and the backoff sleeps (milliseconds,
in order) that were awaited. -/
structure RetryRun where
  result : Except String Outcome
  calls : Nat
  delays : List Nat

/-- The retry loop `for (attempt = 1; attempt <= retries; attempt++)`,
structurally recursive on the remaining iteration count `fuel`
(`fuel = retries + 1 - attempt` at every call). When the loop exits,
`throw lastError` (re-)throws the last recorded failure; `lastError` is
`none` only in the degenerate `retries = 0` case, where JS throws
`undefined`. A failure whose message contains `"(4"` is rethrown at once
(the source comment reads: do not retry 4xx); otherwise, if another attempt remains, the loop
sleeps `2^attempt * 1000` milliseconds before it. -/
def retryGo (provider : Nat → Except String Outcome) (retries : Nat) :
    Nat → Nat → Option String → RetryRun
  | 0, _, lastError =>
    { result := .error (lastError.getD "undefined"), calls := 0, delays := [] }
  | fuel + 1, attempt, _ =>
    match provider attempt with
    | .ok o => { result := .ok o, calls := 1, delays := [] }
    | .error e =>
      if jsIncludes e "(4" then { result := .error e, calls := 1, delays := [] }
      else
        let tail := retryGo provider retries fuel (attempt + 1) (some e)
        if attempt < retries then
          { result := tail.result, calls := tail.calls + 1
            delays := 2 ^ attempt * 1000 :: tail.delays }
        else
          { result := tail.result, calls := tail.calls + 1, delays := tail.delays }

/-- Embeds `completeWithRetry` with an explicit attempt budget (the source default
is `personasConfig.retry_attempts || 3`). `provider k` stands for the
`complete(instructions, input, options)` call made on attempt `k`. -/
def completeWithRetry (provider : Nat → Except String Outcome) (retries : Nat) : RetryRun :=
  retryGo provider retries retries 1 none

/-! ## Orchestrator data model (orchestrator.js) -/

/-- One entry of the memo `options` JSON array: either a plain string or an
object; the renderer uses `o.description || o`, where stringifying a
non-string object yields `[object Object]`. -/
inductive MemoOption where
  | str : String → MemoOption
  | obj : Option String → Option String → MemoOption

/-- Renders `${o.description || o}` for one option entry. -/
def optionText : MemoOption → String
  | .str s => s
  | .obj _ d =>
    match d with
    | some s => if s = "" then "[object Object]" else s
    | none => "[object Object]"

/-- The memo `constraints` JSON object; all fields optional strings. -/
structure Constraints where
  time : Option String := none
  budget : Option String := none
  risk_tolerance : Option String := none
  politics : Option String := none

/-- The memo data assembled in `runBoardMeeting` after the JSON columns are
parsed and defaulted. -/
structure MemoData where
  context : List String
  decision_required : String
  options : List MemoOption
  constraints : Constraints
  success_metrics : List String
  questions_for_board : List String

/-- The `memos` DB row feeding a run; nullable JSON columns are `Option`,
already holding their decoded values (they were written by
`JSON.stringify` in the memo route). -/
structure MemoRow where
  context : Option (List String) := none
  decision_required : String
  options : Option (List MemoOption) := none
  constraints : Option Constraints := none
  success_metrics : Option (List String) := none
  questions_for_board : Option (List String) := none

/-- The `memoData` object of `runBoardMeeting`: each absent column falls
back to `[]` / the empty object. -/
def memoData (m : MemoRow) : MemoData :=
  { context := m.context.getD []
    decision_required := m.decision_required
    options := m.options.getD []
    constraints := m.constraints.getD {}
    success_metrics := m.success_metrics.getD []
    questions_for_board := m.questions_for_board.getD [] }

/-- Renders `xs.map(x => `- x`).join('\n')`. -/
def bulleted (xs : List String) : String :=
  String.intercalate "\n" (xs.map (fun c => "- " ++ c))

/-- Renders `xs.map((x, i) => `i+1. x`).join('\n')`. -/
def numbered (xs : List String) : String :=
  String.intercalate "\n" (xs.enum.map (fun p => toString (p.1 + 1) ++ ". " ++ p.2))

/-- The options section body of the memo rendering. -/
def optionsNumbered (opts : List MemoOption) : String :=
  numbered (opts.map optionText)

/-- The conditional politics line: rendered only when the constraint is
truthy, otherwise the interpolation contributes the empty string. -/
def politicsPart (p : Option String) : String :=
  match p with
  | some s => if s = "" then "" else "- Political considerations: " ++ s
  | none => ""

/-- Embeds `formatMemoForPrompt(memo)`: the fixed template-literal layout,
trimmed. -/
def formatMemoForPrompt (memo : MemoData) : String :=
  jsTrim ("\n## Board Memo\n\n### Context\n"
    ++ bulleted memo.context
    ++ "\n\n### Decision Required\n"
    ++ memo.decision_required
    ++ "\n\n### Options\n"
    ++ optionsNumbered memo.options
    ++ "\n\n### Constraints\n- Time: "
    ++ jsOr memo.constraints.time "Not specified"
    ++ "\n- Budget: "
    ++ jsOr memo.constraints.budget "Not specified"
    ++ "\n- Risk Tolerance: "
    ++ jsOr memo.constraints.risk_tolerance "Medium"
    ++ "\n"
    ++ politicsPart memo.constraints.politics
    ++ "\n\n### Success Metrics\n"
    ++ bulleted memo.success_metrics
    ++ "\n\n### Questions for the Board\n"
    ++ numbered memo.questions_for_board
    ++ "\n")

/-- One reviewer block of the synthesis input; `p` is
`result.parsed || {}`, so a null parsed object degrades to the fallback
values of each interpolation. -/
def reviewerBlock (persona : String) (result : Outcome) : String :=
  let p := result.parsed.getD {}
  "\n### " ++ jsToUpper persona
    ++ "\n- **Position:** " ++ jsOr p.position "N/A"
    ++ "\n- **Top Reasons:** " ++ String.intercalate "; " (p.top_reasons.getD [])
    ++ "\n- **Top Risks:** " ++ String.intercalate "; " (p.top_risks.getD [])
    ++ "\n- **Confidence:** " ++ jsOr p.confidence "N/A"
    ++ "\n"

/-- Embeds `formatSynthesisInput(memo, boardResults)`. -/
def formatSynthesisInput (memo : MemoData) (boardResults : List (String × Outcome)) : String :=
  jsTrim ("\n## Original Memo\n"
    ++ formatMemoForPrompt memo
    ++ "\n\n---\n\n## Board Member Responses\n"
    ++ String.intercalate "\n" (boardResults.map (fun pr => reviewerBlock pr.1 pr.2))
    ++ "\n\n---\n\nPlease synthesize these perspectives into a single, coherent recommendation.\n")

/-- The persisted `validation_metrics` column: `JSON.stringify` of either
the parsed metrics object or the `\x7b\x7d` fallback (the empty JSON
object). -/
inductive VMetricsJson where
  | emptyObj : VMetricsJson
  | obj : VMetrics → VMetricsJson

/-- One `responses` row as built by `saveResponse` (the `id` column is an
external uuid and is not modelled; list/object columns hold the values
that `JSON.stringify` serialises). -/
structure ResponseRow where
  session_id : String
  persona_id : String
  position : String
  top_reasons : List String
  top_risks : List String
  recommended_modifications : List String
  validation_metrics : VMetricsJson
  confidence : String
  raw_analysis : String
  tokens_used : Nat

/-- Embeds `saveResponse(sessionId, personaId, result)` as the row it inserts. -/
def saveRow (sessionId personaId : String) (result : Outcome) : ResponseRow :=
  let parsed := result.parsed.getD {}
  { session_id := sessionId
    persona_id := personaId
    position := jsOr parsed.position (jsOr parsed.integrated_recommendation_decision "")
    top_reasons := parsed.top_reasons.getD []
    top_risks := parsed.top_risks.getD []
    recommended_modifications := parsed.recommended_modifications.getD []
    validation_metrics :=
      match parsed.validation_metrics with
      | some vm => .obj vm
      | none => .emptyObj
    confidence := jsOr parsed.confidence "medium"
    raw_analysis := result.raw
    tokens_used := result.tokens.total }

/-- Observable side effects of a run, in program order: session status
updates, the start of each LLM call (with the input text it is given), and
each persisted response row. -/
inductive Event where
  | dbSetStatus : String → Event
  | llmCall : String → String → Event
  | dbSaveResponse : String → ResponseRow → Event

/-- The value returned by a completed `runBoardMeeting`. -/
structure BoardRunResult where
  sessionId : String
  status : String
  secretary : Outcome
  board : List (String × Outcome)
  strategist : Outcome
  totalTokens : Nat

/-- A run together with its event trace; `value` is `.error msg` when
`runBoardMeeting` rejects (no `BoardRunResult` reaches the caller). -/
structure RunTrace where
  value : Except String BoardRunResult
  events : List Event

/-- The fixed phase-2 fan-out set, in array order. -/
def boardPersonas : List String := ["operator", "finance", "craft-expert", "contrarian"]

/-- Models `Promise.all` over the reviewer calls: resolves with the outcomes in
array order, or rejects with a rejecting call. The source awaits real
concurrency where rejection order is temporal; with at most one failing
call (the situations the claims quantify over) this is exactly the first
error in array order, which is how the join is modelled. -/
def promiseAll : List (String × RetryRun) → Except String (List (String × Outcome))
  | [] => .ok []
  | (p, r) :: rest =>
    match r.result with
    | .error e => .error e
    | .ok o =>
      match promiseAll rest with
      | .error e => .error e
      | .ok os => .ok ((p, o) :: os)

/-- Embeds `runBoardMeeting(sessionId)`. `oracle persona input attempt` models the
`complete` call (network + parse) issued for that persona with that input
text on that retry attempt; `retries` is the configured attempt budget.
The instructions text comes from static prompt files and is determined by
the persona id, so it is folded into the oracle. The trace records every
status write, call start and row insert in source order. -/
def runBoardMeeting (oracle : String → String → Nat → Except String Outcome)
    (retries : Nat) (sessionId : String) (memo? : Option MemoRow) : RunTrace :=
  let ev0 : List Event := [.dbSetStatus "running"]
  match memo? with
  | none => { value := .error "No memo found for session", events := ev0 }
  | some memo =>
    let md := memoData memo
    let memoText := formatMemoForPrompt md
    let secRun := completeWithRetry (oracle "secretary" memoText) retries
    let ev1 := ev0 ++ [Event.llmCall "secretary" memoText]
    match secRun.result with
    | .error e => { value := .error e, events := ev1 }
    | .ok secretaryResult =>
      let boardRuns := boardPersonas.map
        (fun p => (p, completeWithRetry (oracle p memoText) retries))
      let ev2 := ev1 ++ boardPersonas.map (fun p => Event.llmCall p memoText)
      match promiseAll boardRuns with
      | .error e => { value := .error e, events := ev2 }
      | .ok boardResults =>
        let ev3 := ev2 ++ boardResults.map
          (fun pr => Event.dbSaveResponse pr.1 (saveRow sessionId pr.1 pr.2))
        let synthesisInput := formatSynthesisInput md boardResults
        let stratRun := completeWithRetry (oracle "strategist" synthesisInput) retries
        let ev4 := ev3 ++ [Event.llmCall "strategist" synthesisInput]
        match stratRun.result with
        | .error e => { value := .error e, events := ev4 }
        | .ok strategistResult =>
          let ev5 := ev4
            ++ [Event.dbSaveResponse "strategist" (saveRow sessionId "strategist" strategistResult)]
            ++ [Event.dbSetStatus "complete"]
          let totalTokens := secretaryResult.tokens.total
            + boardResults.foldl (fun sum r => sum + r.2.tokens.total) 0
            + strategistResult.tokens.total
          { value := .ok
              { sessionId := sessionId
                status := "complete"
                secretary := secretaryResult
                board := boardResults
                strategist := strategistResult
                totalTokens := totalTokens }
            events := ev5 }

/-! ## Claim-level reference definition for the extraction order -/

/-- Following the claim wording for the JSON extractor: the ordered list of
candidate locations — the capture of a fenced block labeled `json` first,
then the capture of a fenced block of any language, then the trimmed whole
text — each candidate trimmed. -/
def claimCandidates (rawText : String) : List String :=
  (match matchJsonFence rawText with
   | some c => [jsTrim c]
   | none => [])
  ++ (match matchAnyFence rawText with
      | some c => [jsTrim c]
      | none => [])
  ++ [jsTrim rawText]

/-- The first candidate of the claimed priority order. -/
def claimFirstCandidate (rawText : String) : String :=
  (claimCandidates rawText).headD (jsTrim rawText)

/-! ## Concrete fixtures for witnesses and counterexamples -/

/-- Token totals used by the all-success oracle fixture, distinct per
persona so the aggregation is visible. -/
def totalFor (p : String) : Nat :=
  if p == "secretary" then 10
  else if p == "operator" then 1
  else if p == "finance" then 2
  else if p == "craft-expert" then 3
  else if p == "contrarian" then 4
  else 20

/-- A successful outcome for persona `p` with no parsed object. -/
def outFor (p : String) : Outcome :=
  { parsed := none
    raw := "raw-" ++ p
    tokens := { input := 0, output := 0, reasoning := 0, total := totalFor p }
    responseId := none }

/-- A terminal 503 failure message; it does not contain the `"(4"` marker. -/
def msg503T : String := providerErrorMessage 503 "upstream unavailable"

/-- Oracle where every persona call succeeds. -/
def oracleAllOk : String → String → Nat → Except String Outcome :=
  fun p _ _ => .ok (outFor p)

/-- Oracle where only the finance reviewer fails, on every attempt. -/
def oracleFinanceFails : String → String → Nat → Except String Outcome :=
  fun p _ _ => if p == "finance" then .error msg503T else .ok (outFor p)

/-- Oracle where the secretary (normalization) call fails on every attempt. -/
def oracleSecFails : String → String → Nat → Except String Outcome :=
  fun p _ _ => if p == "secretary" then .error msg503T else .ok (outFor p)

/-- A small memo row fixture. -/
def memoEx : MemoRow :=
  { context := some ["We are at a crossroads"]
    decision_required := "Choose a direction"
    options := some [.str "Accept", .obj (some "B") (some "Decline")]
    constraints := some { time := some "two weeks" }
    success_metrics := some ["revenue"]
    questions_for_board := some ["what next"] }

/-- A memo whose constraints object is entirely empty. -/
def memoPlain : MemoData :=
  { context := ["alpha"]
    decision_required := "decide"
    options := [.str "take it"]
    constraints := {}
    success_metrics := ["metric one"]
    questions_for_board := ["question one"] }

/-- Provider stub that fails once with a 400-class error. -/
def prov400 : Nat → Except String Outcome :=
  fun _ => .error (providerErrorMessage 400 "Bad Request")

/-- Provider stub that always fails with a plain 503 error (retryable: its
message does not contain `"(4"`). -/
def provAll503 : Nat → Except String Outcome :=
  fun _ => .error (providerErrorMessage 503 "Service Unavailable")

/-- Provider stub whose 503 failure body happens to contain the substring
`"(4"` even though the status is not in the 4xx class. -/
def provSneaky503 : Nat → Except String Outcome :=
  fun _ => .error (providerErrorMessage 503 "quota resets (4h)")

/-- Provider stub that fails on the first two attempts with a plain 503
error and succeeds on the third. -/
def provTwice503 : Nat → Except String Outcome :=
  fun k => if k ≤ 2 then .error (providerErrorMessage 503 "Service Unavailable")
           else .ok (outFor "retry")

/-- Host JSON parser stub that always fails. -/
def jparseNone : String → Option ParsedObj := fun _ => none

/-- Host JSON parser stub that records the string it was given. -/
def jparseEcho : String → Option ParsedObj := fun s => some { position := some s }

/-- A provider response whose text holds a generic fenced block before a
`json`-labeled fenced block. -/
def twoFenceData : ResponseData :=
  { output_text := some "Result:\n```\nAAA\n```\nand\n```json\nPAYLOADJ\n```\ndone" }

/-- A provider response whose text is prose that does not parse as JSON. -/
def dataBad : ResponseData := { output_text := some "plain prose answer" }

/-- An outcome with a null parsed object and non-empty raw text. -/
def nullRawOut : Outcome :=
  { parsed := none
    raw := "this is not json"
    tokens := { input := 0, output := 0, reasoning := 0, total := 0 }
    responseId := none }

/-- Event predicate: a persisted-response row write. -/
def isSaveEv : Event → Bool :=
  fun ev => match ev with | .dbSaveResponse _ _ => true | _ => false

/-- Event predicate: a persisted-response row write for the secretary. -/
def isSecretarySaveEv : Event → Bool :=
  fun ev => match ev with | .dbSaveResponse p _ => p == "secretary" | _ => false

/-- Event predicate: the status write that marks the run complete. -/
def isCompleteEv : Event → Bool :=
  fun ev => match ev with | .dbSetStatus s => s == "complete" | _ => false

/-- Event predicate: a status write of a `failed` state. -/
def isFailedEv : Event → Bool :=
  fun ev => match ev with | .dbSetStatus s => s == "failed" | _ => false

/-! ## Helper lemmas -/

lemma hasSub_nil (l : List Char) : hasSub [] l = true := by
  cases l <;> simp [hasSub, List.isPrefixOf]

lemma hasSub_append (pat xs ys : List Char) (h : hasSub pat xs = true) :
    hasSub pat (xs ++ ys) = true := by
  induction xs with
  | nil =>
    simp [hasSub, List.isEmpty_iff] at h
    subst h
    exact hasSub_nil ys
  | cons c r ih =>
    simp only [hasSub, Bool.or_eq_true] at h ⊢
    rcases h with h | h
    · left
      have hp : pat <+: (c :: r) := List.isPrefixOf_iff_prefix.mp h
      exact List.isPrefixOf_iff_prefix.mpr (hp.trans (List.prefix_append _ _))
    · right
      exact ih h

lemma includes4_of_status (status : Nat) (body : String)
    (h1 : 400 ≤ status) (h2 : status < 500) :
    jsIncludes (providerErrorMessage status body) "(4" = true := by
  have hsplit : (providerErrorMessage status body).toList
      = ("OpenAI Responses API error (" ++ toString status ++ "): ").toList ++ body.toList := by
    simp [providerErrorMessage, String.toList]
  unfold jsIncludes
  rw [hsplit]
  apply hasSub_append
  interval_cases status <;> decide

lemma retryGo_exhaust (provider : Nat → Except String Outcome) (retries : Nat) (e : String)
    (hlast : provider retries = .error e) :
    ∀ (fuel attempt : Nat) (last : Option String),
      attempt + fuel = retries + 1 → 1 ≤ fuel →
      (∀ k, attempt ≤ k → k ≤ retries →
        ∃ e2, provider k = .error e2 ∧ jsIncludes e2 "(4" = false) →
      (retryGo provider retries fuel attempt last).result = .error e ∧
      (retryGo provider retries fuel attempt last).calls = fuel := by
  intro fuel
  induction fuel with
  | zero => intro attempt last h1 h2 _; omega
  | succ f ih =>
    intro attempt last hsum _ hall
    obtain ⟨e2, hpe, hn4⟩ := hall attempt (le_refl attempt) (by omega)
    by_cases hlt : attempt < retries
    · have hrec := ih (attempt + 1) (some e2) (by omega) (by omega)
        (fun k hk1 hk2 => hall k (by omega) hk2)
      constructor
      · simp [retryGo, hpe, hn4, hlt, hrec.1]
      · simp [retryGo, hpe, hn4, hlt, hrec.2]
    · have hae : attempt = retries := by omega
      subst hae
      have hf : f = 0 := by omega
      subst hf
      rw [hlast] at hpe
      have he : e = e2 := by
        injection hpe with h
      subst he
      simp [retryGo, hlast, hn4, hlt]

/-! ## Claims C3 and C4: the retry wrapper -/

/-- C3 (amended): a failure whose message contains the substring `"(4"` is
never retried — `completeWithRetry` rethrows it after that single provider
invocation with no backoff delay. Every 4xx-class provider error has a
message of the form `OpenAI Responses API error (4xx): body` and therefore
always hits this path. Failures whose message does not contain `"(4"`
(in particular plain 5xx, timeout and network failures) are retried up to
the attempt budget, amounting to exactly `retries` provider invocations.
(The original claim that ALL non-4xx failures are retried fails on the
code: the classifier is a substring test on the message, so a 5xx error
whose body mentions `"(4"` is also rethrown immediately.) -/
theorem retry_wrapper_4xx_policy :
    (∀ (provider : Nat → Except String Outcome) (retries fuel attempt : Nat)
        (last : Option String) (status : Nat) (body : String),
        400 ≤ status → status < 500 →
        provider attempt = .error (providerErrorMessage status body) →
        retryGo provider retries (fuel + 1) attempt last
          = { result := .error (providerErrorMessage status body), calls := 1, delays := [] }) ∧
    (∀ (provider : Nat → Except String Outcome) (retries : Nat),
        1 ≤ retries →
        (∀ k, 1 ≤ k → k ≤ retries →
          ∃ e, provider k = .error e ∧ jsIncludes e "(4" = false) →
        (completeWithRetry provider retries).calls = retries) := by
  constructor
  · intro provider retries fuel attempt last status body h1 h2 hp
    simp [retryGo, hp, includes4_of_status status body h1 h2]
  · intro provider retries h1 hall
    obtain ⟨e, hpe, _⟩ := hall retries h1 (le_refl retries)
    exact (retryGo_exhaust provider retries e hpe retries 1 none (by omega) h1
      (fun k hk1 hk2 => hall k hk1 hk2)).2

/-- C3 counterexample: a 503-class (non-4xx) failure whose body happens to
contain `"(4"` is NOT retried — the wrapper stops after exactly one
invocation with no delay, refuting the claim that all 5xx failures are
retried up to the attempt budget. -/
theorem retry_wrapper_4xx_policy_counterexample :
    (completeWithRetry provSneaky503 3).calls = 1 ∧
    (completeWithRetry provSneaky503 3).delays = [] ∧
    (completeWithRetry provSneaky503 3).result
      = .error (providerErrorMessage 503 "quota resets (4h)") :=
  ⟨rfl, rfl, rfl⟩

/-- C3 witness: a stub failing once with a 400-class error raises after
exactly 1 invocation with no delay, and a stub always failing with a plain
503 error is invoked exactly `retries = 3` times. -/
theorem retry_wrapper_4xx_policy_witness :
    retryGo prov400 3 3 1 none
      = { result := .error (providerErrorMessage 400 "Bad Request"), calls := 1, delays := [] } ∧
    (completeWithRetry provAll503 3).calls = 3 := by
  constructor
  · exact retry_wrapper_4xx_policy.1 prov400 3 2 1 none 400 "Bad Request"
      (by norm_num) (by norm_num) rfl
  · exact retry_wrapper_4xx_policy.2 provAll503 3 (by norm_num)
      (fun k _ _ => ⟨providerErrorMessage 503 "Service Unavailable", rfl, by decide⟩)

/-- C4: with a provider failing twice retryably then succeeding and
`maxAttempts = 3`, `completeWithRetry` returns the success outcome after
exactly 3 invocations, sleeping `2^1 * 1000 = 2000` ms before the second
attempt and `2^2 * 1000 = 4000` ms before the third (so at least 2 seconds
before the second attempt); and when every attempt up to the budget fails
retryably, the error of the final attempt is surfaced unchanged. -/
theorem retry_wrapper_backoff_and_exhaustion :
    (∀ (provider : Nat → Except String Outcome) (e1 e2 : String) (out : Outcome),
        provider 1 = .error e1 → provider 2 = .error e2 → provider 3 = .ok out →
        jsIncludes e1 "(4" = false → jsIncludes e2 "(4" = false →
        completeWithRetry provider 3
          = { result := .ok out, calls := 3, delays := [2000, 4000] }) ∧
    (∀ (provider : Nat → Except String Outcome) (retries : Nat) (e : String),
        1 ≤ retries →
        (∀ k, 1 ≤ k → k ≤ retries →
          ∃ e2, provider k = .error e2 ∧ jsIncludes e2 "(4" = false) →
        provider retries = .error e →
        (completeWithRetry provider retries).result = .error e) := by
  constructor
  · intro provider e1 e2 out h1 h2 h3 hn1 hn2
    simp [completeWithRetry, retryGo, h1, h2, h3, hn1, hn2]
  · intro provider retries e h1 hall hlast
    exact (retryGo_exhaust provider retries e hlast retries 1 none (by omega) h1 hall).1

/-- C4 witness: the concrete two-503-then-success stub at budget 3, and the
exhaustion case surfacing the last 503 unchanged. -/
theorem retry_wrapper_backoff_witness :
    completeWithRetry provTwice503 3
      = { result := .ok (outFor "retry"), calls := 3, delays := [2000, 4000] } ∧
    (completeWithRetry provAll503 3).result
      = .error (providerErrorMessage 503 "Service Unavailable") := by
  constructor
  · exact retry_wrapper_backoff_and_exhaustion.1 provTwice503
      (providerErrorMessage 503 "Service Unavailable")
      (providerErrorMessage 503 "Service Unavailable")
      (outFor "retry") rfl rfl rfl (by decide) (by decide)
  · exact retry_wrapper_backoff_and_exhaustion.2 provAll503 3
      (providerErrorMessage 503 "Service Unavailable") (by norm_num)
      (fun k _ _ => ⟨providerErrorMessage 503 "Service Unavailable", rfl, by decide⟩) rfl

/-! ## Claims C2, C9 and C10: parsing, extraction order, persisted defaults -/

lemma extractJsonStr_eq_claimFirst (s : String) :
    extractJsonStr s = claimFirstCandidate s := by
  unfold extractJsonStr claimFirstCandidate claimCandidates
  cases hj : matchJsonFence s <;> cases ha : matchAnyFence s <;> simp

lemma extractJsonStr_prefers_labeled_fence :
    extractJsonStr "Result:\n```\nAAA\n```\nand\n```json\nPAYLOADJ\n```\ndone"
      = "PAYLOADJ" := by decide

/-- C9: when a schema was requested, the parsed value is the host JSON
parse of exactly one candidate string, chosen in the claimed priority
order — the capture of a `json`-labeled fenced block if one matches, else
the capture of any fenced block, else the trimmed whole text (each
candidate trimmed, per the source regexes). -/
theorem extractor_priority_order :
    (∀ s : String, extractJsonStr s = claimFirstCandidate s) ∧
    (∀ (jparse : String → Option ParsedObj) (d : ResponseData),
        extractRawText d ≠ "" →
        (parseResponse jparse d true).parsed
          = jparse (claimFirstCandidate (extractRawText d))) := by
  constructor
  · exact extractJsonStr_eq_claimFirst
  · intro jparse d h
    have hb : (extractRawText d == "") = false := by
      rw [beq_eq_false_iff_ne]; exact h
    simp [parseResponse, hb, extractJsonStr_eq_claimFirst]

/-- C9 witness: a response text holding a generic fenced block before a
`json`-labeled one; the parsed value comes from the `json`-labeled block. -/
theorem extractor_priority_order_witness :
    (parseResponse jparseEcho twoFenceData true).parsed
      = jparseEcho (claimFirstCandidate (extractRawText twoFenceData)) :=
  extractor_priority_order.2 jparseEcho twoFenceData (by decide)

/-- C2 (amended): a response whose text fails to parse as JSON under a
requested schema yields `parsed = none` with the raw text preserved (no
error is raised — the formatter and parser are total), and the synthesis
Input renders such a reviewer with `N/A` for position and confidence but
with EMPTY strings (the join of the `[]` fallback), not `N/A`, for top
reasons and top risks, and the original claim that all four fields render
as `N/A` fails on the code. -/
theorem parse_failure_yields_null_and_na_rendering :
    (∀ (jparse : String → Option ParsedObj) (d : ResponseData),
        jparse (extractJsonStr (extractRawText d)) = none →
        (parseResponse jparse d true).parsed = none ∧
        (parseResponse jparse d true).raw = extractRawText d) ∧
    (∀ (persona : String) (o : Outcome), o.parsed = none →
        reviewerBlock persona o
          = "\n### " ++ jsToUpper persona ++ "\n- **Position:** " ++ "N/A"
            ++ "\n- **Top Reasons:** " ++ "" ++ "\n- **Top Risks:** " ++ ""
            ++ "\n- **Confidence:** " ++ "N/A" ++ "\n") := by
  constructor
  · intro jparse d h
    constructor
    · by_cases hb : extractRawText d = ""
      · simp [parseResponse, hb]
      · have hb2 : (extractRawText d == "") = false := by
          rw [beq_eq_false_iff_ne]; exact hb
        simp [parseResponse, hb2, h]
    · simp [parseResponse]
  · intro persona o h
    obtain ⟨par, raw, tok, rid⟩ := o
    simp only [Outcome.parsed] at h
    subst h
    rfl

/-- C2 counterexample: for a null parsed object the rendered block uses
`N/A` for the position but renders the top-reasons and top-risks fields as
empty strings, so the claim that ALL fields fall back to `N/A` is false. -/
theorem na_rendering_counterexample :
    nullRawOut.parsed = none ∧
    nullRawOut.raw = "this is not json" ∧
    jsIncludes (reviewerBlock "finance" nullRawOut) "- **Position:** N/A" = true ∧
    jsIncludes (reviewerBlock "finance" nullRawOut) "- **Top Reasons:** N/A" = false ∧
    jsIncludes (reviewerBlock "finance" nullRawOut) "- **Top Risks:** N/A" = false :=
  ⟨rfl, rfl, by decide, by decide, by decide⟩

/-- C2 witness: a concrete failing JSON parse on concrete prose, and the
rendered block of a concrete null-parsed reviewer outcome. -/
theorem parse_failure_null_witness :
    ((parseResponse jparseNone dataBad true).parsed = none ∧
      (parseResponse jparseNone dataBad true).raw = extractRawText dataBad) ∧
    reviewerBlock "operator" nullRawOut
      = "\n### " ++ jsToUpper "operator" ++ "\n- **Position:** " ++ "N/A"
        ++ "\n- **Top Reasons:** " ++ "" ++ "\n- **Top Risks:** " ++ ""
        ++ "\n- **Confidence:** " ++ "N/A" ++ "\n" :=
  ⟨parse_failure_yields_null_and_na_rendering.1 jparseNone dataBad rfl,
   parse_failure_yields_null_and_na_rendering.2 "operator" nullRawOut rfl⟩

/-- C10: persisting an outcome whose parsed object is null writes definite
values in every column — empty-string position, empty arrays for the three
list columns, the empty JSON object for validation metrics, the literal
`medium` (not null and not `N/A`) for confidence — alongside the raw text
and token total of the outcome. -/
theorem saved_row_defaults_for_null_parsed :
    ∀ (sid p : String) (o : Outcome), o.parsed = none →
      saveRow sid p o =
        { session_id := sid, persona_id := p, position := ""
          top_reasons := [], top_risks := [], recommended_modifications := []
          validation_metrics := .emptyObj, confidence := "medium"
          raw_analysis := o.raw, tokens_used := o.tokens.total } := by
  intro sid p o h
  obtain ⟨par, raw, tok, rid⟩ := o
  simp only [Outcome.parsed] at h
  subst h
  rfl

/-- C10 witness: the persisted row of a concrete null-parsed outcome. -/
theorem saved_row_defaults_witness :
    saveRow "s1" "finance" nullRawOut =
      { session_id := "s1", persona_id := "finance", position := ""
        top_reasons := [], top_risks := [], recommended_modifications := []
        validation_metrics := .emptyObj, confidence := "medium"
        raw_analysis := "this is not json", tokens_used := 0 } :=
  saved_row_defaults_for_null_parsed "s1" "finance" nullRawOut rfl

/-! ## Claims C1, C5, C6, C7, C8: the orchestrator -/

lemma runBoardMeeting_all_ok
    (oracle : String → String → Nat → Except String Outcome) (retries : Nat)
    (sid : String) (m : MemoRow) (so o1 o2 o3 o4 st : Outcome)
    (hsec : (completeWithRetry (oracle "secretary" (formatMemoForPrompt (memoData m)))
      retries).result = .ok so)
    (h1 : (completeWithRetry (oracle "operator" (formatMemoForPrompt (memoData m)))
      retries).result = .ok o1)
    (h2 : (completeWithRetry (oracle "finance" (formatMemoForPrompt (memoData m)))
      retries).result = .ok o2)
    (h3 : (completeWithRetry (oracle "craft-expert" (formatMemoForPrompt (memoData m)))
      retries).result = .ok o3)
    (h4 : (completeWithRetry (oracle "contrarian" (formatMemoForPrompt (memoData m)))
      retries).result = .ok o4)
    (hst : (completeWithRetry (oracle "strategist" (formatSynthesisInput (memoData m)
        [("operator", o1), ("finance", o2), ("craft-expert", o3), ("contrarian", o4)]))
      retries).result = .ok st) :
    runBoardMeeting oracle retries sid (some m) =
      { value := .ok
          { sessionId := sid
            status := "complete"
            secretary := so
            board := [("operator", o1), ("finance", o2), ("craft-expert", o3), ("contrarian", o4)]
            strategist := st
            totalTokens := so.tokens.total
              + (o1.tokens.total + o2.tokens.total + o3.tokens.total + o4.tokens.total)
              + st.tokens.total }
        events := [Event.dbSetStatus "running",
          Event.llmCall "secretary" (formatMemoForPrompt (memoData m)),
          Event.llmCall "operator" (formatMemoForPrompt (memoData m)),
          Event.llmCall "finance" (formatMemoForPrompt (memoData m)),
          Event.llmCall "craft-expert" (formatMemoForPrompt (memoData m)),
          Event.llmCall "contrarian" (formatMemoForPrompt (memoData m)),
          Event.dbSaveResponse "operator" (saveRow sid "operator" o1),
          Event.dbSaveResponse "finance" (saveRow sid "finance" o2),
          Event.dbSaveResponse "craft-expert" (saveRow sid "craft-expert" o3),
          Event.dbSaveResponse "contrarian" (saveRow sid "contrarian" o4),
          Event.llmCall "strategist" (formatSynthesisInput (memoData m)
            [("operator", o1), ("finance", o2), ("craft-expert", o3), ("contrarian", o4)]),
          Event.dbSaveResponse "strategist" (saveRow sid "strategist" st),
          Event.dbSetStatus "complete"] } := by
  simp [runBoardMeeting, boardPersonas, promiseAll, hsec, h1, h2, h3, h4, hst, List.foldl]

/-- C8: when all six calls succeed, the returned Board Run Result holds
exactly the 4 reviewer outcomes keyed by persona id in fan-out order, plus
the normalization (secretary) outcome and the synthesis (strategist)
outcome, and `totalTokens` is the arithmetic sum of `tokens.total` over
the normalization, the 4 reviewers and the synthesis. -/
theorem board_run_result_shape_and_total
    (oracle : String → String → Nat → Except String Outcome) (retries : Nat)
    (sid : String) (m : MemoRow) (so o1 o2 o3 o4 st : Outcome)
    (hsec : (completeWithRetry (oracle "secretary" (formatMemoForPrompt (memoData m)))
      retries).result = .ok so)
    (h1 : (completeWithRetry (oracle "operator" (formatMemoForPrompt (memoData m)))
      retries).result = .ok o1)
    (h2 : (completeWithRetry (oracle "finance" (formatMemoForPrompt (memoData m)))
      retries).result = .ok o2)
    (h3 : (completeWithRetry (oracle "craft-expert" (formatMemoForPrompt (memoData m)))
      retries).result = .ok o3)
    (h4 : (completeWithRetry (oracle "contrarian" (formatMemoForPrompt (memoData m)))
      retries).result = .ok o4)
    (hst : (completeWithRetry (oracle "strategist" (formatSynthesisInput (memoData m)
        [("operator", o1), ("finance", o2), ("craft-expert", o3), ("contrarian", o4)]))
      retries).result = .ok st) :
    (runBoardMeeting oracle retries sid (some m)).value = .ok
      { sessionId := sid
        status := "complete"
        secretary := so
        board := [("operator", o1), ("finance", o2), ("craft-expert", o3), ("contrarian", o4)]
        strategist := st
        totalTokens := so.tokens.total
          + (o1.tokens.total + o2.tokens.total + o3.tokens.total + o4.tokens.total)
          + st.tokens.total } := by
  rw [runBoardMeeting_all_ok oracle retries sid m so o1 o2 o3 o4 st hsec h1 h2 h3 h4 hst]

/-- C8 witness: an all-success oracle with distinct token totals
10, 1, 2, 3, 4, 20 yields the 4 keyed reviewer outcomes and
`totalTokens = 40`. -/
theorem board_run_result_shape_witness :
    (runBoardMeeting oracleAllOk 3 "w8" (some memoEx)).value = .ok
      { sessionId := "w8"
        status := "complete"
        secretary := outFor "secretary"
        board := [("operator", outFor "operator"), ("finance", outFor "finance"),
          ("craft-expert", outFor "craft-expert"), ("contrarian", outFor "contrarian")]
        strategist := outFor "strategist"
        totalTokens := 40 } :=
  board_run_result_shape_and_total oracleAllOk 3 "w8" memoEx
    (outFor "secretary") (outFor "operator") (outFor "finance")
    (outFor "craft-expert") (outFor "contrarian") (outFor "strategist")
    rfl rfl rfl rfl rfl rfl

/-- C5 (amended): on a successful run the persisted records are the 4
reviewer rows (written right after the fan-out joins, BEFORE the synthesis
call and before the run is marked complete) and one synthesis row (written
before the `complete` status update); NO normalization record is persisted
— the secretary outcome is returned but never written. The full event
trace fixes this order exactly. -/
theorem persisted_records_and_order
    (oracle : String → String → Nat → Except String Outcome) (retries : Nat)
    (sid : String) (m : MemoRow) (so o1 o2 o3 o4 st : Outcome)
    (hsec : (completeWithRetry (oracle "secretary" (formatMemoForPrompt (memoData m)))
      retries).result = .ok so)
    (h1 : (completeWithRetry (oracle "operator" (formatMemoForPrompt (memoData m)))
      retries).result = .ok o1)
    (h2 : (completeWithRetry (oracle "finance" (formatMemoForPrompt (memoData m)))
      retries).result = .ok o2)
    (h3 : (completeWithRetry (oracle "craft-expert" (formatMemoForPrompt (memoData m)))
      retries).result = .ok o3)
    (h4 : (completeWithRetry (oracle "contrarian" (formatMemoForPrompt (memoData m)))
      retries).result = .ok o4)
    (hst : (completeWithRetry (oracle "strategist" (formatSynthesisInput (memoData m)
        [("operator", o1), ("finance", o2), ("craft-expert", o3), ("contrarian", o4)]))
      retries).result = .ok st) :
    (runBoardMeeting oracle retries sid (some m)).events =
      [Event.dbSetStatus "running",
        Event.llmCall "secretary" (formatMemoForPrompt (memoData m)),
        Event.llmCall "operator" (formatMemoForPrompt (memoData m)),
        Event.llmCall "finance" (formatMemoForPrompt (memoData m)),
        Event.llmCall "craft-expert" (formatMemoForPrompt (memoData m)),
        Event.llmCall "contrarian" (formatMemoForPrompt (memoData m)),
        Event.dbSaveResponse "operator" (saveRow sid "operator" o1),
        Event.dbSaveResponse "finance" (saveRow sid "finance" o2),
        Event.dbSaveResponse "craft-expert" (saveRow sid "craft-expert" o3),
        Event.dbSaveResponse "contrarian" (saveRow sid "contrarian" o4),
        Event.llmCall "strategist" (formatSynthesisInput (memoData m)
          [("operator", o1), ("finance", o2), ("craft-expert", o3), ("contrarian", o4)]),
        Event.dbSaveResponse "strategist" (saveRow sid "strategist" st),
        Event.dbSetStatus "complete"] := by
  rw [runBoardMeeting_all_ok oracle retries sid m so o1 o2 o3 o4 st hsec h1 h2 h3 h4 hst]

/-- C5 counterexample: on a concrete successful (completed) run, zero
persisted rows belong to the secretary — no normalization record exists —
and all 5 persisted rows occur strictly before the `complete` status
write, refuting both that one normalization record is persisted per run
and that records are persisted only after the run reaches Complete. -/
theorem persisted_records_counterexample :
    ((runBoardMeeting oracleAllOk 3 "s5" (some memoEx)).events.countP isSecretarySaveEv) = 0 ∧
    (((runBoardMeeting oracleAllOk 3 "s5" (some memoEx)).events.takeWhile
        (fun ev => !(isCompleteEv ev))).countP isSaveEv) = 5 ∧
    ((runBoardMeeting oracleAllOk 3 "s5" (some memoEx)).events.countP isCompleteEv) = 1 :=
  ⟨by decide, by decide, by decide⟩

/-- C5 witness: the full concrete event trace of an all-success run. -/
theorem persisted_records_witness :
    (runBoardMeeting oracleAllOk 3 "w5" (some memoEx)).events =
      [Event.dbSetStatus "running",
        Event.llmCall "secretary" (formatMemoForPrompt (memoData memoEx)),
        Event.llmCall "operator" (formatMemoForPrompt (memoData memoEx)),
        Event.llmCall "finance" (formatMemoForPrompt (memoData memoEx)),
        Event.llmCall "craft-expert" (formatMemoForPrompt (memoData memoEx)),
        Event.llmCall "contrarian" (formatMemoForPrompt (memoData memoEx)),
        Event.dbSaveResponse "operator" (saveRow "w5" "operator" (outFor "operator")),
        Event.dbSaveResponse "finance" (saveRow "w5" "finance" (outFor "finance")),
        Event.dbSaveResponse "craft-expert" (saveRow "w5" "craft-expert" (outFor "craft-expert")),
        Event.dbSaveResponse "contrarian" (saveRow "w5" "contrarian" (outFor "contrarian")),
        Event.llmCall "strategist" (formatSynthesisInput (memoData memoEx)
          [("operator", outFor "operator"), ("finance", outFor "finance"),
            ("craft-expert", outFor "craft-expert"), ("contrarian", outFor "contrarian")]),
        Event.dbSaveResponse "strategist" (saveRow "w5" "strategist" (outFor "strategist")),
        Event.dbSetStatus "complete"] :=
  persisted_records_and_order oracleAllOk 3 "w5" memoEx
    (outFor "secretary") (outFor "operator") (outFor "finance")
    (outFor "craft-expert") (outFor "contrarian") (outFor "strategist")
    rfl rfl rfl rfl rfl rfl

/-- C6 (amended): a terminal normalization (phase-1) failure propagates
immediately with the underlying error: no phase-2 reviewer call is ever
started, nothing is persisted, and — unlike the claimed `Failed` terminal
state — the only status ever written is `running`, which is where the
session is left (the source never writes a `failed` status; its states are
draft/running/complete). -/
theorem normalization_failure_short_circuits
    (oracle : String → String → Nat → Except String Outcome) (retries : Nat)
    (sid : String) (m : MemoRow) (e : String)
    (hsec : (completeWithRetry (oracle "secretary" (formatMemoForPrompt (memoData m)))
      retries).result = .error e) :
    runBoardMeeting oracle retries sid (some m) =
      { value := .error e
        events := [Event.dbSetStatus "running",
          Event.llmCall "secretary" (formatMemoForPrompt (memoData m))] } := by
  simp [runBoardMeeting, hsec]

/-- C6 counterexample: a run whose normalization call fails terminally is
left with no `failed` status write at all (its only status write is
`running`), refuting the claim that the run is left in a `Failed` terminal
state. -/
theorem failed_state_counterexample :
    (runBoardMeeting oracleSecFails 3 "s6" (some memoEx)).value = .error msg503T ∧
    ((runBoardMeeting oracleSecFails 3 "s6" (some memoEx)).events.countP isFailedEv) = 0 ∧
    ((runBoardMeeting oracleSecFails 3 "s6" (some memoEx)).events.countP
      (fun ev => match ev with | .dbSetStatus _ => true | _ => false)) = 1 :=
  ⟨rfl, by decide, by decide⟩

/-- C6 witness: the concrete trace of a run with a terminally failing
secretary call — the error propagates and phase 2 never starts. -/
theorem normalization_failure_witness :
    runBoardMeeting oracleSecFails 3 "w6" (some memoEx) =
      { value := .error msg503T
        events := [Event.dbSetStatus "running",
          Event.llmCall "secretary" (formatMemoForPrompt (memoData memoEx))] } :=
  normalization_failure_short_circuits oracleSecFails 3 "w6" memoEx msg503T rfl

/-- C1 (amended): when phase 1 succeeds and exactly one of the 4 reviewer
calls exhausts its retries, the whole run fails and no Board Run Result is
returned — but the surfaced error is the error of the failing call
propagated UNCHANGED: the source defines no `OrchestrationError` and
attaches no phase or persona context to the failure. -/
theorem single_reviewer_failure_propagates
    (oracle : String → String → Nat → Except String Outcome) (retries : Nat)
    (sid : String) (m : MemoRow) (so : Outcome) (failP e : String)
    (hsec : (completeWithRetry (oracle "secretary" (formatMemoForPrompt (memoData m)))
      retries).result = .ok so)
    (hmem : failP ∈ boardPersonas)
    (hfail : (completeWithRetry (oracle failP (formatMemoForPrompt (memoData m)))
      retries).result = .error e)
    (hok : ∀ p ∈ boardPersonas, p ≠ failP →
      ∃ o, (completeWithRetry (oracle p (formatMemoForPrompt (memoData m)))
        retries).result = .ok o) :
    (runBoardMeeting oracle retries sid (some m)).value = .error e ∧
    ∀ r : BoardRunResult, (runBoardMeeting oracle retries sid (some m)).value ≠ .ok r := by
  have hval : (runBoardMeeting oracle retries sid (some m)).value = .error e := by
    simp [boardPersonas] at hmem
    rcases hmem with rfl | rfl | rfl | rfl
    · simp [runBoardMeeting, boardPersonas, promiseAll, hsec, hfail]
    · obtain ⟨oa, ha⟩ := hok "operator" (by simp [boardPersonas]) (by decide)
      simp [runBoardMeeting, boardPersonas, promiseAll, hsec, hfail, ha]
    · obtain ⟨oa, ha⟩ := hok "operator" (by simp [boardPersonas]) (by decide)
      obtain ⟨ob, hb⟩ := hok "finance" (by simp [boardPersonas]) (by decide)
      simp [runBoardMeeting, boardPersonas, promiseAll, hsec, hfail, ha, hb]
    · obtain ⟨oa, ha⟩ := hok "operator" (by simp [boardPersonas]) (by decide)
      obtain ⟨ob, hb⟩ := hok "finance" (by simp [boardPersonas]) (by decide)
      obtain ⟨oc, hc⟩ := hok "craft-expert" (by simp [boardPersonas]) (by decide)
      simp [runBoardMeeting, boardPersonas, promiseAll, hsec, hfail, ha, hb, hc]
  refine ⟨hval, ?_⟩
  intro r hr
  rw [hval] at hr
  exact Except.noConfusion hr

/-- C1 counterexample: with only the finance reviewer failing terminally,
the run rejects with the raw provider error message, which names neither
the phase `parallel_review` nor the persona `finance` and is not an
`OrchestrationError` wrapper of any kind. -/
theorem orchestration_error_counterexample :
    (runBoardMeeting oracleFinanceFails 3 "s1" (some memoEx)).value = .error msg503T ∧
    jsIncludes msg503T "parallel_review" = false ∧
    jsIncludes msg503T "finance" = false :=
  ⟨rfl, by decide, by decide⟩

/-- C1 witness: the single-failing-reviewer scenario instantiated with the
concrete finance-failing oracle. -/
theorem single_reviewer_failure_witness :
    (runBoardMeeting oracleFinanceFails 3 "w1" (some memoEx)).value = .error msg503T ∧
    ∀ r : BoardRunResult,
      (runBoardMeeting oracleFinanceFails 3 "w1" (some memoEx)).value ≠ .ok r :=
  single_reviewer_failure_propagates oracleFinanceFails 3 "w1" memoEx
    (outFor "secretary") "finance" msg503T rfl (by decide) rfl
    (fun p hp hne => by
      simp [boardPersonas] at hp
      rcases hp with rfl | rfl | rfl | rfl
      · exact ⟨outFor "operator", rfl⟩
      · exact absurd rfl hne
      · exact ⟨outFor "craft-expert", rfl⟩
      · exact ⟨outFor "contrarian", rfl⟩)

/-- C7 (amended): the rendered memo has the fixed section order context,
decision required, options, constraints, success metrics, questions; a
missing `time` or `budget` constraint renders as `Not specified`, but a
missing `risk_tolerance` renders as `Medium` and a missing `politics`
constraint is omitted entirely (its interpolation is the empty string) —
and empty list sections render as empty bodies, not placeholders. -/
theorem memo_rendering_sections_and_placeholders
    (memo : MemoData)
    (ht : memo.constraints.time = none) (hb : memo.constraints.budget = none)
    (hr : memo.constraints.risk_tolerance = none) (hp : memo.constraints.politics = none) :
    formatMemoForPrompt memo =
      jsTrim ("\n## Board Memo\n\n### Context\n"
        ++ bulleted memo.context
        ++ "\n\n### Decision Required\n"
        ++ memo.decision_required
        ++ "\n\n### Options\n"
        ++ optionsNumbered memo.options
        ++ "\n\n### Constraints\n- Time: "
        ++ "Not specified"
        ++ "\n- Budget: "
        ++ "Not specified"
        ++ "\n- Risk Tolerance: "
        ++ "Medium"
        ++ "\n"
        ++ ""
        ++ "\n\n### Success Metrics\n"
        ++ bulleted memo.success_metrics
        ++ "\n\n### Questions for the Board\n"
        ++ numbered memo.questions_for_board
        ++ "\n") := by
  unfold formatMemoForPrompt
  rw [ht, hb, hr, hp]
  rfl

set_option maxRecDepth 8000 in
/-- C7 counterexample: a memo whose constraints object is empty renders
the risk-tolerance line as `Medium` — not `Not specified` — and renders
no politics line at all, refuting the claim that every missing optional
field renders as an explicit `Not specified` placeholder. -/
theorem memo_rendering_counterexample :
    jsIncludes (formatMemoForPrompt memoPlain) "- Time: Not specified" = true ∧
    jsIncludes (formatMemoForPrompt memoPlain) "- Risk Tolerance: Medium" = true ∧
    jsIncludes (formatMemoForPrompt memoPlain) "Risk Tolerance: Not specified" = false ∧
    jsIncludes (formatMemoForPrompt memoPlain) "Political considerations" = false :=
  ⟨by decide, by decide, by decide, by decide⟩

/-- C7 witness: the placeholder characterisation instantiated at the
concrete empty-constraints memo. -/
theorem memo_rendering_witness :
    formatMemoForPrompt memoPlain =
      jsTrim ("\n## Board Memo\n\n### Context\n"
        ++ bulleted memoPlain.context
        ++ "\n\n### Decision Required\n"
        ++ memoPlain.decision_required
        ++ "\n\n### Options\n"
        ++ optionsNumbered memoPlain.options
        ++ "\n\n### Constraints\n- Time: "
        ++ "Not specified"
        ++ "\n- Budget: "
        ++ "Not specified"
        ++ "\n- Risk Tolerance: "
        ++ "Medium"
        ++ "\n"
        ++ ""
        ++ "\n\n### Success Metrics\n"
        ++ bulleted memoPlain.success_metrics
        ++ "\n\n### Questions for the Board\n"
        ++ numbered memoPlain.questions_for_board
        ++ "\n") :=
  memo_rendering_sections_and_placeholders memoPlain rfl rfl rfl rfl
